import Mathlib

/-!
Shallow embedding of the QIIME workflow front end scripts
`scripts/pick_otus_through_otu_table.py` and `scripts/plot_taxa_summary.py`.

The entry point `main` of `pick_otus_through_otu_table.py` is embedded as
`mainModel`, an explicit function of the command-line options, a filesystem
model, the content of the parameter file and the success behaviour of the
external commands.  The workflow helpers that the script imports from the
`qiime` package (`parse_qiime_parameters`, `run_qiime_data_preparation`,
`print_commands`, `call_commands_serially`) are not part of this repository
and are modelled from the specification, as marked on each definition.
-/

/-- Splitting a character list on a separator character, in the manner of
Python `str.split(sep)`: the empty input yields one empty field, and every
occurrence of the separator begins a new field. -/
def splitOnChar (sep : Char) : List Char → List (List Char)
  | [] => [[]]
  | c :: cs =>
    let r := splitOnChar sep cs
    if c == sep then [] :: r
    else
      match r with
      | [] => [[c]]
      | h :: t => (c :: h) :: t

/-- Python `s.split(sep)` for a one-character separator. -/
def pySplit (sep : Char) (s : String) : List String :=
  (splitOnChar sep s.data).map (fun l => String.mk l)

/-- Python `s.strip()`: remove leading and trailing whitespace. -/
def pyStrip (s : String) : String :=
  String.mk (((s.data.dropWhile Char.isWhitespace).reverse.dropWhile
    Char.isWhitespace).reverse)

/-- Python `s.lower()` (ASCII letters, which is all the chart keywords use). -/
def pyLower (s : String) : String := String.mk (s.data.map Char.toLower)

/-- Command-line options of `pick_otus_through_otu_table.py` (`script_info`
required and optional options).  `mapping_fp` and `sff_fp` default to `None`
in the source, so they are `Option String` here. -/
structure Opts where
  input_fp : String
  output_dir : String
  parameter_fp : String
  force : Bool
  print_only : Bool
  parallel : Bool
  verbose : Bool
  mapping_fp : Option String
  sff_fp : Option String
deriving DecidableEq

/-- Python truthiness of an optional string option: `None` and the empty
string are falsy, any other string is truthy.  This is the meaning of
`if opts.sff_fp or opts.mapping_fp` in the source. -/
def pyTruthy : Option String → Bool
  | none => false
  | some s => !(s == "")

/-- Filesystem model: the set of files that can be opened for reading, the
set of existing directories, and the files (path, content) currently on
disk. -/
structure World where
  readable : List String
  dirs : List String
  files : List (String × String)
deriving DecidableEq

/-- Filesystem operations the preflight code could perform.  `main` only
ever opens the parameter file for reading and creates the output directory;
`remove` is in the vocabulary so that its absence from a trace is a
meaningful statement. -/
inductive FsEffect where
  | openRead (p : String)
  | mkdirp (p : String)
  | remove (p : String)
deriving DecidableEq

/-- Creating a directory in the filesystem model (`os.makedirs`). -/
def World.mkdir (w : World) (d : String) : World :=
  { w with dirs := d :: w.dirs }

/-- One external command of the pipeline: program, ordered arguments, and
the declared input/output paths that chain the steps together. -/
structure CommandInvocation where
  program : String
  args : List String
  inputPath : String
  outputPath : String
deriving DecidableEq

/-- The message of the `IOError` raised at lines 126-129 of
`pick_otus_through_otu_table.py` when the parameter file cannot be opened.
The apostrophe of the source text is spelled via its character code. -/
def ioErrorMsg (fp : String) : String :=
  "Can" ++ String.singleton (Char.ofNat 39) ++ "t open parameters file ("
    ++ fp ++ "). Does it exist? Do you have read access?"

/-- The message of the `assert` at lines 131-134 of
`pick_otus_through_otu_table.py`. -/
def sffAssertMsg : String :=
  "The sff and mapping fp are only required when denoising, and both must be provided in that case."

/-- The message printed at lines 144-145 of `pick_otus_through_otu_table.py`
before `exit(1)` when the output directory already exists and force is not
set. -/
def dirConflictMsg : String :=
  "Output directory already exists. Please choose a different directory, or force overwrite with -f."

/-- The condition of the `assert` at lines 131-132: it fires (fails) exactly
when at least one of sff/mapping is truthy but not both. -/
def sffMappingInconsistent (opts : Opts) : Bool :=
  (pyTruthy opts.sff_fp || pyTruthy opts.mapping_fp)
    && !(pyTruthy opts.sff_fp && pyTruthy opts.mapping_fp)

/-- Message of the parse error for an override-file line with no separator. -/
def malformedLineMsg (line : String) : String :=
  "Malformed line in parameters file (missing separator): " ++ line

/-- Modelled from the spec: `qiime.parse.parse_qiime_parameters` is imported
by the script but its source is not under `src/`.  Per the spec, each line
of the override file has the shape `step_name:option_name <value>`; a line
with no `:` separator is a fatal parse error identifying the offending
line. -/
def parseParamLine (line : String) : Except String (String × String × String) :=
  match pySplit ':' line with
  | step :: r :: rest =>
    let remainder := String.intercalate ":" (r :: rest)
    match pySplit ' ' remainder with
    | [] => Except.ok (step, remainder, "")
    | optName :: valueParts => Except.ok (step, optName, String.intercalate " " valueParts)
  | _ => Except.error (malformedLineMsg line)

/-- Modelled from the spec: the override file is parsed line by line into
(step, option, value) triples; the first malformed line is a fatal parse
error. -/
def parse_qiime_parameters : List String → Except String (List (String × String × String))
  | [] => Except.ok []
  | l :: ls =>
    match parseParamLine l with
    | Except.error e => Except.error e
    | Except.ok t =>
      match parse_qiime_parameters ls with
      | Except.error e => Except.error e
      | Except.ok ts => Except.ok (t :: ts)

/-- The seven fixed downstream steps of the pipeline, in the order given by
the spec state machine and the script usage documentation. -/
def downstream_step_names : List String :=
  ["pick_otus", "pick_rep_set", "align_seqs", "assign_taxonomy",
   "filter_alignment", "make_phylogeny", "make_otu_table"]

/-- Modelled from the spec (CommandBuilder): each step runs the program
named after it, reads the declared output of its predecessor, and writes
into its own subdirectory `<root>/<step_name>`. -/
def chainSteps (output_dir : String) : List String → String → List CommandInvocation
  | [], _ => []
  | name :: rest, inp =>
    let out := output_dir ++ "/" ++ name
    { program := name ++ ".py", args := ["-i", inp, "-o", out],
      inputPath := inp, outputPath := out } :: chainSteps output_dir rest out

/-- Modelled from the spec: the planner portion of
`qiime.workflow.run_qiime_data_preparation` (not under `src/`).  Per the
spec DenoiseDecision, the chain starts with a denoise step iff both a
raw-instrument (sff) input and a metadata-mapping input are supplied;
the denoise output becomes the clustering step input.  Otherwise the chain
starts at OTU picking on the original sequence input. -/
def run_qiime_data_preparation_commands
    (input_fp output_dir : String) (sff_input_fp mapping_fp : Option String) :
    List CommandInvocation :=
  if pyTruthy sff_input_fp && pyTruthy mapping_fp then
    let denoise_out := output_dir ++ "/" ++ "denoise"
    { program := "denoise.py", args := ["-i", input_fp, "-o", denoise_out],
      inputPath := input_fp, outputPath := denoise_out }
      :: chainSteps output_dir downstream_step_names denoise_out
  else
    chainSteps output_dir downstream_step_names input_fp

/-- Rendering of one command invocation as text (dry-run output line). -/
def renderInvocation (c : CommandInvocation) : String :=
  c.program ++ " " ++ String.intercalate " " c.args

/-- Modelled from the spec: `qiime.workflow.print_commands` (not under
`src/`) renders each invocation as text, takes no other action and always
reports success. -/
def print_commands (cmds : List CommandInvocation) : List String × Bool :=
  (cmds.map renderInvocation, true)

/-- Modelled from the spec: `qiime.workflow.call_commands_serially` (not
under `src/`) executes the invocations one at a time in list order; on a
failure result it halts immediately, skipping all subsequent invocations.
The result list records exactly the invocations that were started, in
order, each paired with its success flag; `exec` is the external world
deciding whether a given command succeeds. -/
def call_commands_serially (exec : CommandInvocation → Bool) :
    List CommandInvocation → List (CommandInvocation × Bool)
  | [] => []
  | c :: cs =>
    if exec c then (c, true) :: call_commands_serially exec cs
    else [(c, false)]

/-- Final outcome of one invocation of the script: the Python exceptions
and exits of the preflight code, or a completed call into the workflow
(`ran printed executed ok`). -/
inductive Outcome where
  | ioError (msg : String)
  | assertionError (msg : String)
  | dirConflict (msg : String)
  | parseError (msg : String)
  | ran (printed : List String) (executed : List (CommandInvocation × Bool)) (ok : Bool)
deriving DecidableEq

/-- Process exit code of an outcome: every uncaught exception and the
explicit `exit(1)` are non-zero; a run is zero iff the pipeline succeeded. -/
def Outcome.exitCode : Outcome → Nat
  | Outcome.ran _ _ true => 0
  | Outcome.ran _ _ false => 1
  | _ => 1

/-- The pipeline steps that were actually started, with their results. -/
def Outcome.executedSteps : Outcome → List (CommandInvocation × Bool)
  | Outcome.ran _ e _ => e
  | _ => []

/-- Whether some started step reported failure (StepExecutionFailure). -/
def Outcome.hasStepFailure (o : Outcome) : Bool :=
  o.executedSteps.any (fun p => !p.2)

/-- The invocation reached planning: the command list was produced and
handed to an execution policy. -/
def reachedPlanning (o : Outcome) : Prop :=
  ∃ p e k, o = Outcome.ran p e k

/-- The part of `main` after the preflight checks (lines 148-167): choose
the command handler from `print_only`, parse the parameter file, plan the
command list and hand it to the handler.  The world is not touched by this
part. -/
def afterPreflight (opts : Opts) (w : World) (effs : List FsEffect)
    (paramLines : List String) (exec : CommandInvocation → Bool) :
    Outcome × World × List FsEffect :=
  match parse_qiime_parameters paramLines with
  | Except.error e => (Outcome.parseError e, w, effs)
  | Except.ok _ps =>
    let cmds := run_qiime_data_preparation_commands
      opts.input_fp opts.output_dir opts.sff_fp opts.mapping_fp
    if opts.print_only then
      let pr := print_commands cmds
      (Outcome.ran pr.1 [] pr.2, w, effs)
    else
      let res := call_commands_serially exec cmds
      (Outcome.ran [] res (res.all fun p => p.2), w, effs)

/-- Embedding of `main` of `pick_otus_through_otu_table.py` (lines
109-167), in source order: open the parameter file (IOError if
unreadable), check the sff/mapping consistency (AssertionError if exactly
one is truthy), `makedirs` the output directory (on conflict: pass when
forced, otherwise print and `exit(1)`), then parse parameters and run the
workflow under the selected command handler.  Returns the outcome, the
final filesystem and the trace of filesystem effects performed. -/
def mainModel (opts : Opts) (w : World) (paramLines : List String)
    (exec : CommandInvocation → Bool) : Outcome × World × List FsEffect :=
  if opts.parameter_fp ∈ w.readable then
    if sffMappingInconsistent opts then
      (Outcome.assertionError sffAssertMsg, w, [FsEffect.openRead opts.parameter_fp])
    else if opts.output_dir ∈ w.dirs then
      if opts.force then
        afterPreflight opts w [FsEffect.openRead opts.parameter_fp] paramLines exec
      else
        (Outcome.dirConflict dirConflictMsg, w, [FsEffect.openRead opts.parameter_fp])
    else
      afterPreflight opts (w.mkdir opts.output_dir)
        [FsEffect.openRead opts.parameter_fp, FsEffect.mkdirp opts.output_dir]
        paramLines exec
  else
    (Outcome.ioError (ioErrorMsg opts.parameter_fp), w, [])

/-- The accepted chart types of `plot_taxa_summary.py` (line 206, the
list named chart_types holding area, pie and bar). -/
def chart_types : List String := ["area", "pie", "bar"]

/-- The `ValueError` message of `plot_taxa_summary.py` line 210. -/
def chartTypeErrorMsg : String :=
  "Please type in one of the appropriate chart types (i.e. "
    ++ String.intercalate "," chart_types ++ ")!"

/-- Embedding of the loop at lines 207-222 of `plot_taxa_summary.py`: each
entry is lowercased then stripped; a valid entry has its charts generated
(`make_all_charts`), recorded here in order in the first component; the
first invalid entry raises the `ValueError`, recorded in the second
component, ending the loop. -/
def processChartEntries : List String → List String × Option String
  | [] => ([], none)
  | i :: rest =>
    let chart_type := pyStrip (pyLower i)
    if chart_type ∈ chart_types then
      let r := processChartEntries rest
      (chart_type :: r.1, r.2)
    else
      ([], some chartTypeErrorMsg)

/-- Embedding of line 205, where plots_to_make is the chart_type option
split on commas,
followed by the chart loop: the charts generated and the error raised, if
any, as a function of the raw `-c`/`--chart_type` option string. -/
def plot_taxa_summary_charts (chart_type_opt : String) : List String × Option String :=
  processChartEntries (pySplit ',' chart_type_opt)

/-- Concrete command used by witnesses. -/
def testCmd (n : String) : CommandInvocation :=
  { program := n, args := [], inputPath := "", outputPath := "" }

/-- Execution behaviour that fails exactly the command whose program is the
given name. -/
def execFailOn (name : String) : CommandInvocation → Bool :=
  fun c => !(c.program == name)

/-- Execution behaviour under which every command succeeds. -/
def execAllOk : CommandInvocation → Bool := fun _ => true

/-- Baseline options used by the witnesses: the three required options and
defaults everywhere else. -/
def optsBase : Opts :=
  { input_fp := "seqs.fasta", output_dir := "out", parameter_fp := "params.txt",
    force := false, print_only := false, parallel := false, verbose := false,
    mapping_fp := none, sff_fp := none }

/-- World used by the witnesses in which the parameter file is readable and
the output directory does not exist yet. -/
def wBase : World := { readable := ["params.txt"], dirs := [], files := [] }

/-- World used by the witnesses in which the parameter file is readable, the
output directory already exists and contains a file. -/
def wOut : World :=
  { readable := ["params.txt"], dirs := ["out"], files := [("out/old.txt", "data")] }

theorem sffMappingInconsistent_iff (opts : Opts) :
    sffMappingInconsistent opts = true ↔
      pyTruthy opts.sff_fp ≠ pyTruthy opts.mapping_fp := by
  cases hs : pyTruthy opts.sff_fp <;> cases hm : pyTruthy opts.mapping_fp <;>
    simp [sffMappingInconsistent, hs, hm]

theorem afterPreflight_world_effs (opts : Opts) (w : World) (effs : List FsEffect)
    (paramLines : List String) (exec : CommandInvocation → Bool) :
    (afterPreflight opts w effs paramLines exec).2 = (w, effs) := by
  unfold afterPreflight
  cases hp : parse_qiime_parameters paramLines with
  | error e => rfl
  | ok ps => by_cases h : opts.print_only <;> simp [h]

theorem afterPreflight_shape (opts : Opts) (w : World) (effs : List FsEffect)
    (paramLines : List String) (exec : CommandInvocation → Bool) :
    (∃ e, (afterPreflight opts w effs paramLines exec).1 = Outcome.parseError e) ∨
      reachedPlanning (afterPreflight opts w effs paramLines exec).1 := by
  unfold afterPreflight
  cases hp : parse_qiime_parameters paramLines with
  | error e => exact Or.inl ⟨e, rfl⟩
  | ok ps =>
    by_cases h : opts.print_only <;> simp [h, reachedPlanning]

theorem afterPreflight_reached (opts : Opts) (w : World) (effs : List FsEffect)
    (paramLines : List String) (exec : CommandInvocation → Bool)
    (ps : List (String × String × String))
    (hp : parse_qiime_parameters paramLines = Except.ok ps) :
    reachedPlanning (afterPreflight opts w effs paramLines exec).1 := by
  unfold afterPreflight
  rw [hp]
  by_cases h : opts.print_only <;> simp [h, reachedPlanning]

theorem afterPreflight_print_exec_irrel (opts : Opts) (h : opts.print_only = true)
    (w : World) (effs : List FsEffect) (paramLines : List String)
    (exec1 exec2 : CommandInvocation → Bool) :
    afterPreflight opts w effs paramLines exec1
      = afterPreflight opts w effs paramLines exec2 := by
  unfold afterPreflight
  cases hp : parse_qiime_parameters paramLines with
  | error e => rfl
  | ok ps => simp [h]

theorem afterPreflight_print_spec (opts : Opts) (h : opts.print_only = true)
    (w : World) (effs : List FsEffect) (paramLines : List String)
    (exec : CommandInvocation → Bool) :
    (afterPreflight opts w effs paramLines exec).1.executedSteps = [] ∧
    (afterPreflight opts w effs paramLines exec).1.hasStepFailure = false ∧
    (∀ p e k, (afterPreflight opts w effs paramLines exec).1 = Outcome.ran p e k →
      k = true ∧ e = [] ∧
      p = (run_qiime_data_preparation_commands opts.input_fp opts.output_dir
            opts.sff_fp opts.mapping_fp).map renderInvocation) := by
  unfold afterPreflight
  cases hp : parse_qiime_parameters paramLines with
  | error e => simp [Outcome.executedSteps, Outcome.hasStepFailure]
  | ok ps =>
    simp [h, print_commands, Outcome.executedSteps, Outcome.hasStepFailure]


/-- Claim C3: under the serial execution policy, invocations run one at a
time in list order; when the 3rd of 8 steps fails, steps 1-2 complete with
success, step 3 reports failure, steps 4-8 are never invoked (the result
list, which records exactly the started invocations in order, stops at the
3rd), and the overall result is failure. -/
theorem claim_C3_serial_halts_on_failure
    (exec : CommandInvocation → Bool) (c1 c2 c3 : CommandInvocation)
    (rest : List CommandInvocation) (hlen : rest.length = 5)
    (h1 : exec c1 = true) (h2 : exec c2 = true) (h3 : exec c3 = false) :
    (c1 :: c2 :: c3 :: rest).length = 8 ∧
    call_commands_serially exec (c1 :: c2 :: c3 :: rest)
      = [(c1, true), (c2, true), (c3, false)] ∧
    ((call_commands_serially exec (c1 :: c2 :: c3 :: rest)).all fun p => p.2)
      = false := by
  refine ⟨by simp [hlen], ?_, ?_⟩ <;>
    simp [call_commands_serially, h1, h2, h3]

/-- Witness for C3 at a concrete 8-step list whose 3rd command fails. -/
theorem claim_C3_witness :
    (testCmd "c1" :: testCmd "c2" :: testCmd "c3"
      :: [testCmd "c4", testCmd "c5", testCmd "c6", testCmd "c7", testCmd "c8"]).length = 8 ∧
    call_commands_serially (execFailOn "c3")
        (testCmd "c1" :: testCmd "c2" :: testCmd "c3"
          :: [testCmd "c4", testCmd "c5", testCmd "c6", testCmd "c7", testCmd "c8"])
      = [(testCmd "c1", true), (testCmd "c2", true), (testCmd "c3", false)] ∧
    ((call_commands_serially (execFailOn "c3")
        (testCmd "c1" :: testCmd "c2" :: testCmd "c3"
          :: [testCmd "c4", testCmd "c5", testCmd "c6", testCmd "c7", testCmd "c8"])).all
      fun p => p.2) = false :=
  claim_C3_serial_halts_on_failure (execFailOn "c3") _ _ _ _
    (by decide) (by decide) (by decide) (by decide)

/-- Claim C5: when the dry-run (print-only) flag is set, the selected
command handler renders each planned invocation as text, performs no
execution (no step is ever started), and always reports success; hence a
dry run never produces a StepExecutionFailure, whatever the inputs and
whatever the external commands would have done. -/
theorem claim_C5_dry_run_never_fails (opts : Opts) (w : World)
    (paramLines : List String) (exec : CommandInvocation → Bool)
    (h : opts.print_only = true) :
    (mainModel opts w paramLines exec).1.executedSteps = [] ∧
    (mainModel opts w paramLines exec).1.hasStepFailure = false ∧
    (∀ p e k, (mainModel opts w paramLines exec).1 = Outcome.ran p e k →
      k = true ∧ e = [] ∧
      p = (run_qiime_data_preparation_commands opts.input_fp opts.output_dir
            opts.sff_fp opts.mapping_fp).map renderInvocation) := by
  by_cases hr : opts.parameter_fp ∈ w.readable
  · by_cases hs : sffMappingInconsistent opts = true
    · simp [mainModel, hr, hs, Outcome.executedSteps, Outcome.hasStepFailure]
    · by_cases hd : opts.output_dir ∈ w.dirs
      · by_cases hf : opts.force = true
        · simp only [mainModel, if_pos hr, hs, if_neg, if_pos hd, if_pos hf,
            Bool.false_eq_true, if_false]
          exact afterPreflight_print_spec opts h w _ paramLines exec
        · simp [mainModel, hr, hs, hd, hf, Outcome.executedSteps,
            Outcome.hasStepFailure]
      · simp only [mainModel, if_pos hr, hs, Bool.false_eq_true, if_false,
          if_neg hd]
        exact afterPreflight_print_spec opts h _ _ paramLines exec
  · simp [mainModel, hr, Outcome.executedSteps, Outcome.hasStepFailure]

/-- Witness for C5 at a concrete dry-run invocation. -/
theorem claim_C5_witness :
    (mainModel
        { input_fp := "seqs.fasta", output_dir := "out", parameter_fp := "params.txt",
          force := false, print_only := true, parallel := false, verbose := false,
          mapping_fp := none, sff_fp := none }
        { readable := ["params.txt"], dirs := [], files := [] } [] execAllOk).1.executedSteps = [] ∧
    (mainModel
        { input_fp := "seqs.fasta", output_dir := "out", parameter_fp := "params.txt",
          force := false, print_only := true, parallel := false, verbose := false,
          mapping_fp := none, sff_fp := none }
        { readable := ["params.txt"], dirs := [], files := [] } [] execAllOk).1.hasStepFailure = false ∧
    (∀ p e k,
      (mainModel
        { input_fp := "seqs.fasta", output_dir := "out", parameter_fp := "params.txt",
          force := false, print_only := true, parallel := false, verbose := false,
          mapping_fp := none, sff_fp := none }
        { readable := ["params.txt"], dirs := [], files := [] } [] execAllOk).1 = Outcome.ran p e k →
      k = true ∧ e = [] ∧
      p = (run_qiime_data_preparation_commands "seqs.fasta" "out" none none).map renderInvocation) :=
  claim_C5_dry_run_never_fails _ _ [] execAllOk rfl

/-- Claim C7: with the print-only policy, the whole result of the run is a
deterministic function of the inputs; in particular it does not depend on
the behaviour of the external commands, so two runs with identical inputs
produce identical rendered command text. -/
theorem claim_C7_dry_run_deterministic (opts : Opts) (w : World)
    (paramLines : List String) (exec1 exec2 : CommandInvocation → Bool)
    (h : opts.print_only = true) :
    mainModel opts w paramLines exec1 = mainModel opts w paramLines exec2 := by
  by_cases hr : opts.parameter_fp ∈ w.readable
  · by_cases hs : sffMappingInconsistent opts = true
    · simp [mainModel, hr, hs]
    · by_cases hd : opts.output_dir ∈ w.dirs
      · by_cases hf : opts.force = true
        · simp only [mainModel, if_pos hr, hs, Bool.false_eq_true, if_false,
            if_pos hd, if_pos hf]
          exact afterPreflight_print_exec_irrel opts h w _ paramLines exec1 exec2
        · simp [mainModel, hr, hs, hd, hf]
      · simp only [mainModel, if_pos hr, hs, Bool.false_eq_true, if_false,
          if_neg hd]
        exact afterPreflight_print_exec_irrel opts h _ _ paramLines exec1 exec2
  · simp [mainModel, hr]

/-- Witness for C7: two concrete dry runs, against external worlds that
disagree on every command, give the same result. -/
theorem claim_C7_witness :
    mainModel
      { input_fp := "seqs.fasta", output_dir := "out", parameter_fp := "params.txt",
        force := false, print_only := true, parallel := false, verbose := false,
        mapping_fp := none, sff_fp := none }
      { readable := ["params.txt"], dirs := [], files := [] } [] execAllOk
    = mainModel
      { input_fp := "seqs.fasta", output_dir := "out", parameter_fp := "params.txt",
        force := false, print_only := true, parallel := false, verbose := false,
        mapping_fp := none, sff_fp := none }
      { readable := ["params.txt"], dirs := [], files := [] } [] (fun _ => false) :=
  claim_C7_dry_run_deterministic _ _ [] execAllOk (fun _ => false) rfl

theorem sffMappingConsistent_eq_false (opts : Opts)
    (hc : pyTruthy opts.sff_fp = pyTruthy opts.mapping_fp) :
    sffMappingInconsistent opts = false := by
  cases h1 : pyTruthy opts.sff_fp <;> cases h2 : pyTruthy opts.mapping_fp <;>
    simp_all [sffMappingInconsistent]


/-- Claim C1: when exactly one of the sff path and the mapping path is
supplied (truthy), the run fails with a pre-execution fatal error: the exit
code is non-zero, no pipeline step is started, the output directory is not
created, and planning is never reached; when both or neither are supplied,
the sff/mapping consistency check passes, i.e. the run never ends in the
AssertionError of that check. -/
theorem claim_C1_sff_mapping_consistency (opts : Opts) (w : World)
    (paramLines : List String) (exec : CommandInvocation → Bool) :
    (pyTruthy opts.sff_fp ≠ pyTruthy opts.mapping_fp →
      (mainModel opts w paramLines exec).1.exitCode ≠ 0 ∧
      (mainModel opts w paramLines exec).1.executedSteps = [] ∧
      (mainModel opts w paramLines exec).2.1.dirs = w.dirs ∧
      ¬ reachedPlanning (mainModel opts w paramLines exec).1) ∧
    (pyTruthy opts.sff_fp = pyTruthy opts.mapping_fp →
      ∀ m, (mainModel opts w paramLines exec).1 ≠ Outcome.assertionError m) := by
  constructor
  · intro hne
    have hs : sffMappingInconsistent opts = true :=
      (sffMappingInconsistent_iff opts).mpr hne
    by_cases hr : opts.parameter_fp ∈ w.readable
    · simp [mainModel, hr, hs, Outcome.exitCode, Outcome.executedSteps,
        reachedPlanning]
    · simp [mainModel, hr, Outcome.exitCode, Outcome.executedSteps,
        reachedPlanning]
  · intro heq m
    have hs : sffMappingInconsistent opts = false :=
      sffMappingConsistent_eq_false opts heq
    by_cases hr : opts.parameter_fp ∈ w.readable
    · by_cases hd : opts.output_dir ∈ w.dirs
      · by_cases hf : opts.force = true
        · rcases afterPreflight_shape opts w [FsEffect.openRead opts.parameter_fp]
              paramLines exec with ⟨e, he⟩ | ⟨p, ex, k, hk⟩
          · simp [mainModel, hr, hs, hd, hf, he]
          · simp [mainModel, hr, hs, hd, hf, hk]
        · simp [mainModel, hr, hs, hd, hf]
      · rcases afterPreflight_shape opts (w.mkdir opts.output_dir)
            [FsEffect.openRead opts.parameter_fp, FsEffect.mkdirp opts.output_dir]
            paramLines exec with ⟨e, he⟩ | ⟨p, ex, k, hk⟩
        · simp [mainModel, hr, hs, hd, he]
        · simp [mainModel, hr, hs, hd, hk]
    · simp [mainModel, hr]

/-- Witness for C1: only the sff file is supplied. -/
theorem claim_C1_witness :
    (mainModel { optsBase with sff_fp := some "x.sff" } wBase [] execAllOk).1.exitCode ≠ 0 ∧
    (mainModel { optsBase with sff_fp := some "x.sff" } wBase [] execAllOk).1.executedSteps = [] ∧
    (mainModel { optsBase with sff_fp := some "x.sff" } wBase [] execAllOk).2.1.dirs = wBase.dirs ∧
    ¬ reachedPlanning (mainModel { optsBase with sff_fp := some "x.sff" } wBase [] execAllOk).1 :=
  (claim_C1_sff_mapping_consistency { optsBase with sff_fp := some "x.sff" }
    wBase [] execAllOk).1 (by decide)

/-- Claim C2: for an invocation that passes the earlier checks (parameter
file readable, sff/mapping consistent, well-formed parameter file), an
existing output directory without force means the directory-conflict
message and a non-zero exit with zero steps started; the same inputs with
force set proceed to planning; and a missing output directory is created
and planning proceeds regardless of force. -/
theorem claim_C2_directory_conflict (opts : Opts) (w : World)
    (paramLines : List String) (exec : CommandInvocation → Bool)
    (ps : List (String × String × String))
    (hr : opts.parameter_fp ∈ w.readable)
    (hc : pyTruthy opts.sff_fp = pyTruthy opts.mapping_fp)
    (hp : parse_qiime_parameters paramLines = Except.ok ps) :
    ((opts.output_dir ∈ w.dirs ∧ opts.force = false) →
      (mainModel opts w paramLines exec).1 = Outcome.dirConflict dirConflictMsg ∧
      (mainModel opts w paramLines exec).1.exitCode ≠ 0 ∧
      (mainModel opts w paramLines exec).1.executedSteps = []) ∧
    ((opts.output_dir ∈ w.dirs ∧ opts.force = true) →
      reachedPlanning (mainModel opts w paramLines exec).1) ∧
    (opts.output_dir ∉ w.dirs →
      (mainModel opts w paramLines exec).2.1.dirs = opts.output_dir :: w.dirs ∧
      reachedPlanning (mainModel opts w paramLines exec).1) := by
  have hs : sffMappingInconsistent opts = false :=
    sffMappingConsistent_eq_false opts hc
  refine ⟨?_, ?_, ?_⟩
  · rintro ⟨hd, hf⟩
    simp [mainModel, hr, hs, hd, hf, Outcome.exitCode, Outcome.executedSteps]
  · rintro ⟨hd, hf⟩
    simp only [mainModel, if_pos hr, hs, Bool.false_eq_true, if_false,
      if_pos hd, if_pos hf]
    exact afterPreflight_reached opts w _ paramLines exec ps hp
  · intro hd
    have hw := afterPreflight_world_effs opts (w.mkdir opts.output_dir)
      [FsEffect.openRead opts.parameter_fp, FsEffect.mkdirp opts.output_dir]
      paramLines exec
    simp only [mainModel, if_pos hr, hs, Bool.false_eq_true, if_false, if_neg hd]
    constructor
    · rw [congrArg Prod.fst hw]
      rfl
    · exact afterPreflight_reached opts (w.mkdir opts.output_dir) _ paramLines exec ps hp

/-- Witness for C2: output directory exists, force unset. -/
theorem claim_C2_witness :
    (mainModel optsBase wOut [] execAllOk).1 = Outcome.dirConflict dirConflictMsg ∧
    (mainModel optsBase wOut [] execAllOk).1.exitCode ≠ 0 ∧
    (mainModel optsBase wOut [] execAllOk).1.executedSteps = [] :=
  (claim_C2_directory_conflict optsBase wOut [] execAllOk []
    (by decide) rfl rfl).1 ⟨by decide, rfl⟩

/-- Claim C8: when the parameter file cannot be opened for reading, the run
ends in the IOError whose message spells out the offending path, the
filesystem is untouched (in particular no output directory was created or
checked and no step ran), and the exit is non-zero; this holds for every
combination of the other options, in particular also when the sff/mapping
combination is inconsistent, so the IOError precedes that check. -/
theorem claim_C8_parameter_file_io_error (opts : Opts) (w : World)
    (paramLines : List String) (exec : CommandInvocation → Bool)
    (h : opts.parameter_fp ∉ w.readable) :
    (mainModel opts w paramLines exec).1
      = Outcome.ioError (ioErrorMsg opts.parameter_fp) ∧
    ioErrorMsg opts.parameter_fp
      = ("Can" ++ String.singleton (Char.ofNat 39) ++ "t open parameters file (")
          ++ opts.parameter_fp ++ "). Does it exist? Do you have read access?" ∧
    (mainModel opts w paramLines exec).2.1 = w ∧
    (mainModel opts w paramLines exec).2.2 = [] ∧
    (mainModel opts w paramLines exec).1.exitCode ≠ 0 := by
  simp [mainModel, h, Outcome.exitCode, ioErrorMsg]

/-- Witness for C8: the parameter file is not readable, and the sff file is
supplied without the mapping file, yet the outcome is the IOError. -/
theorem claim_C8_witness :
    (mainModel { optsBase with sff_fp := some "x.sff" }
        { readable := [], dirs := ["out"], files := [] } [] execAllOk).1
      = Outcome.ioError (ioErrorMsg "params.txt") ∧
    ioErrorMsg "params.txt"
      = ("Can" ++ String.singleton (Char.ofNat 39) ++ "t open parameters file (")
          ++ "params.txt" ++ "). Does it exist? Do you have read access?" ∧
    (mainModel { optsBase with sff_fp := some "x.sff" }
        { readable := [], dirs := ["out"], files := [] } [] execAllOk).2.1
      = { readable := [], dirs := ["out"], files := [] } ∧
    (mainModel { optsBase with sff_fp := some "x.sff" }
        { readable := [], dirs := ["out"], files := [] } [] execAllOk).2.2 = [] ∧
    (mainModel { optsBase with sff_fp := some "x.sff" }
        { readable := [], dirs := ["out"], files := [] } [] execAllOk).1.exitCode ≠ 0 :=
  claim_C8_parameter_file_io_error { optsBase with sff_fp := some "x.sff" }
    { readable := [], dirs := ["out"], files := [] } [] execAllOk (by decide)

/-- Claim C9: with force set and the output directory already existing (and
the earlier checks passing), the directory-exists error is silently
ignored: the run is never the directory-conflict exit, the filesystem model
is left exactly as it was (so no existing file in the output directory is
deleted or modified), and the effect trace contains no removal operation. -/
theorem claim_C9_force_no_removal (opts : Opts) (w : World)
    (paramLines : List String) (exec : CommandInvocation → Bool)
    (hr : opts.parameter_fp ∈ w.readable)
    (hc : pyTruthy opts.sff_fp = pyTruthy opts.mapping_fp)
    (hd : opts.output_dir ∈ w.dirs) (hf : opts.force = true) :
    (mainModel opts w paramLines exec).2.1 = w ∧
    (∀ e ∈ (mainModel opts w paramLines exec).2.2, ∀ p, e ≠ FsEffect.remove p) ∧
    (∀ m, (mainModel opts w paramLines exec).1 ≠ Outcome.dirConflict m) := by
  have hs : sffMappingInconsistent opts = false :=
    sffMappingConsistent_eq_false opts hc
  have hw := afterPreflight_world_effs opts w [FsEffect.openRead opts.parameter_fp]
    paramLines exec
  simp only [mainModel, if_pos hr, hs, Bool.false_eq_true, if_false,
    if_pos hd, if_pos hf]
  refine ⟨congrArg Prod.fst hw, ?_, ?_⟩
  · rw [congrArg Prod.snd hw]
    intro e he p
    simp only [List.mem_singleton] at he
    subst he
    simp
  · intro m hm
    rcases afterPreflight_shape opts w [FsEffect.openRead opts.parameter_fp]
        paramLines exec with ⟨e, he⟩ | ⟨p', ex, k, hk⟩
    · rw [he] at hm; exact Outcome.noConfusion hm
    · rw [hk] at hm; exact Outcome.noConfusion hm

/-- Witness for C9: force set, output directory exists and holds a file. -/
theorem claim_C9_witness :
    (mainModel { optsBase with force := true } wOut [] execAllOk).2.1 = wOut ∧
    (∀ e ∈ (mainModel { optsBase with force := true } wOut [] execAllOk).2.2,
      ∀ p, e ≠ FsEffect.remove p) ∧
    (∀ m, (mainModel { optsBase with force := true } wOut [] execAllOk).1
      ≠ Outcome.dirConflict m) :=
  claim_C9_force_no_removal { optsBase with force := true } wOut [] execAllOk
    (by decide) rfl (by decide) rfl

/-- Claim C4: the planner yields a fixed-order chain whose length depends
only on the denoise decision: with no sff/mapping input the chain has the 7
steps beginning at OTU clustering; with both supplied it has 8 steps with
denoising first, and the denoise step's declared output is the clustering
step's declared input. -/
theorem claim_C4_planner_chain (input out s m : String)
    (hs : s ≠ "") (hm : m ≠ "") :
    (run_qiime_data_preparation_commands input out none none).length = 7 ∧
    ((run_qiime_data_preparation_commands input out none none).get? 0).map
      (fun c => c.program) = some "pick_otus.py" ∧
    (run_qiime_data_preparation_commands input out (some s) (some m)).length = 8 ∧
    ((run_qiime_data_preparation_commands input out (some s) (some m)).get? 0).map
      (fun c => c.program) = some "denoise.py" ∧
    ((run_qiime_data_preparation_commands input out (some s) (some m)).get? 1).map
      (fun c => c.program) = some "pick_otus.py" ∧
    ((run_qiime_data_preparation_commands input out (some s) (some m)).get? 1).map
        (fun c => c.inputPath)
      = ((run_qiime_data_preparation_commands input out (some s) (some m)).get? 0).map
        (fun c => c.outputPath) := by
  have hps : pyTruthy (some s) = true := by simp [pyTruthy, hs]
  have hpm : pyTruthy (some m) = true := by simp [pyTruthy, hm]
  refine ⟨?_, ?_, ?_, ?_, ?_, ?_⟩ <;>
    simp [run_qiime_data_preparation_commands, pyTruthy, hs, hm,
      downstream_step_names, chainSteps]

/-- Witness for C4 at concrete paths. -/
theorem claim_C4_witness :
    (run_qiime_data_preparation_commands "seqs.fasta" "wf" none none).length = 7 ∧
    ((run_qiime_data_preparation_commands "seqs.fasta" "wf" none none).get? 0).map
      (fun c => c.program) = some "pick_otus.py" ∧
    (run_qiime_data_preparation_commands "seqs.fasta" "wf" (some "x.sff") (some "map.txt")).length = 8 ∧
    ((run_qiime_data_preparation_commands "seqs.fasta" "wf" (some "x.sff") (some "map.txt")).get? 0).map
      (fun c => c.program) = some "denoise.py" ∧
    ((run_qiime_data_preparation_commands "seqs.fasta" "wf" (some "x.sff") (some "map.txt")).get? 1).map
      (fun c => c.program) = some "pick_otus.py" ∧
    ((run_qiime_data_preparation_commands "seqs.fasta" "wf" (some "x.sff") (some "map.txt")).get? 1).map
        (fun c => c.inputPath)
      = ((run_qiime_data_preparation_commands "seqs.fasta" "wf" (some "x.sff") (some "map.txt")).get? 0).map
        (fun c => c.outputPath) :=
  claim_C4_planner_chain "seqs.fasta" "wf" "x.sff" "map.txt" (by decide) (by decide)

theorem parseParamLine_no_sep (line : String)
    (hsep : pySplit ':' line = [line]) :
    parseParamLine line = Except.error (malformedLineMsg line) := by
  unfold parseParamLine
  rw [hsep]

theorem parse_qiime_parameters_first_error (lines1 : List String) (line : String)
    (lines2 : List String)
    (hpre : ∀ l ∈ lines1, ∃ t, parseParamLine l = Except.ok t)
    (he : parseParamLine line = Except.error (malformedLineMsg line)) :
    parse_qiime_parameters (lines1 ++ line :: lines2)
      = Except.error (malformedLineMsg line) := by
  induction lines1 with
  | nil => simp [parse_qiime_parameters, he]
  | cons a as ih =>
    obtain ⟨t, ht⟩ := hpre a (by simp)
    have ih' := ih (fun l hl => hpre l (by simp [hl]))
    simp [parse_qiime_parameters, ht, ih']

/-- Claim C6: for an invocation that passes the preflight checks before
parsing, an override file whose lines are well formed up to a line with no
`:` separator makes the run end in a parse error whose message spells out
the offending line, with a non-zero exit and no pipeline step started. -/
theorem claim_C6_malformed_override_line (opts : Opts) (w : World)
    (lines1 : List String) (line : String) (lines2 : List String)
    (exec : CommandInvocation → Bool)
    (hr : opts.parameter_fp ∈ w.readable)
    (hc : pyTruthy opts.sff_fp = pyTruthy opts.mapping_fp)
    (hd : opts.output_dir ∉ w.dirs ∨ opts.force = true)
    (hsep : pySplit ':' line = [line])
    (hpre : ∀ l ∈ lines1, ∃ t, parseParamLine l = Except.ok t) :
    (mainModel opts w (lines1 ++ line :: lines2) exec).1
      = Outcome.parseError (malformedLineMsg line) ∧
    malformedLineMsg line
      = "Malformed line in parameters file (missing separator): " ++ line ∧
    (mainModel opts w (lines1 ++ line :: lines2) exec).1.exitCode ≠ 0 ∧
    (mainModel opts w (lines1 ++ line :: lines2) exec).1.executedSteps = [] := by
  have hs : sffMappingInconsistent opts = false :=
    sffMappingConsistent_eq_false opts hc
  have hperr := parse_qiime_parameters_first_error lines1 line lines2 hpre
    (parseParamLine_no_sep line hsep)
  have key : ∀ (w' : World) (effs : List FsEffect),
      afterPreflight opts w' effs (lines1 ++ line :: lines2) exec
        = (Outcome.parseError (malformedLineMsg line), w', effs) := by
    intro w' effs
    unfold afterPreflight
    rw [hperr]
  rcases hd with hd | hf
  · simp [mainModel, hr, hs, hd, key, Outcome.exitCode, Outcome.executedSteps,
      malformedLineMsg]
  · by_cases hdir : opts.output_dir ∈ w.dirs
    · simp [mainModel, hr, hs, hdir, hf, key, Outcome.exitCode,
        Outcome.executedSteps, malformedLineMsg]
    · simp [mainModel, hr, hs, hdir, key, Outcome.exitCode,
        Outcome.executedSteps, malformedLineMsg]

/-- Witness for C6: a well-formed override line followed by a line with no
separator. -/
theorem claim_C6_witness :
    (mainModel optsBase wBase
        (["pick_otus:similarity 0.97"] ++ "badline" :: []) execAllOk).1
      = Outcome.parseError (malformedLineMsg "badline") ∧
    malformedLineMsg "badline"
      = "Malformed line in parameters file (missing separator): " ++ "badline" ∧
    (mainModel optsBase wBase
        (["pick_otus:similarity 0.97"] ++ "badline" :: []) execAllOk).1.exitCode ≠ 0 ∧
    (mainModel optsBase wBase
        (["pick_otus:similarity 0.97"] ++ "badline" :: []) execAllOk).1.executedSteps = [] :=
  claim_C6_malformed_override_line optsBase wBase
    ["pick_otus:similarity 0.97"] "badline" [] execAllOk
    (by decide) rfl (Or.inl (by decide)) (by decide)
    (fun l hl => by
      simp only [List.mem_singleton] at hl
      subst hl
      exact ⟨("pick_otus", "similarity", "0.97"), by rfl⟩)

theorem processChartEntries_prefix_invalid (pre : List String) (x : String)
    (post : List String)
    (hpre : ∀ y ∈ pre, pyStrip (pyLower y) ∈ chart_types)
    (hx : pyStrip (pyLower x) ∉ chart_types) :
    processChartEntries (pre ++ x :: post)
      = (pre.map (fun y => pyStrip (pyLower y)), some chartTypeErrorMsg) := by
  induction pre with
  | nil => simp [processChartEntries, hx]
  | cons a as ih =>
    have ha := hpre a (by simp)
    have ih' := ih (fun y hy => hpre y (by simp [hy]))
    simp [processChartEntries, ha, ih']

/-- Claim C10: splitting the chart_type option on commas, each entry is
lowercased and stripped; when the entries up to some position are valid and
that position's entry is not one of area/pie/bar, the run generates the
charts of exactly the preceding (normalized) entries, in order, and then
raises the ValueError. -/
theorem claim_C10_chart_type_validation (s : String) (pre : List String)
    (x : String) (post : List String)
    (hsplit : pySplit ',' s = pre ++ x :: post)
    (hpre : ∀ y ∈ pre, pyStrip (pyLower y) ∈ chart_types)
    (hx : pyStrip (pyLower x) ∉ chart_types) :
    plot_taxa_summary_charts s
      = (pre.map (fun y => pyStrip (pyLower y)), some chartTypeErrorMsg) := by
  unfold plot_taxa_summary_charts
  rw [hsplit]
  exact processChartEntries_prefix_invalid pre x post hpre hx

/-- Witness for C10: `-c` value with a valid entry, then an entry that is
invalid after lowercasing and stripping, then a further entry. -/
theorem claim_C10_witness :
    plot_taxa_summary_charts "area, Foo,pie"
      = (["area"].map (fun y => pyStrip (pyLower y)), some chartTypeErrorMsg) :=
  claim_C10_chart_type_validation "area, Foo,pie" ["area"] " Foo" ["pie"]
    (by decide) (by decide) (by decide)
